import Mathlib

/-!
Verification of the `request` package: a fluent HTTP request builder with a
server-driven retry loop, response classification and content-negotiated
decoding (source: `request.go`).

The embedding is shallow.  Pure Go functions become Lean functions; the
retry loop becomes a well-founded recursion whose transport interactions are
supplied by an oracle `attempts : Nat → SendOutcome` (the outcome of
`client.Do` on the n-th send).  External collaborators (the URL parser,
`path.Join`, the mime parser, the JSON/YAML/XML unmarshalers, file reads)
are passed in as explicit function parameters, since their implementations
live outside this repository.  Go strings are modelled as Lean `String`s
and the few `strings` helpers used by the source are re-implemented over
`Char` lists so that they evaluate inside the kernel; byte-level truncation
indices are modelled at character granularity.
-/

/-! ### String helpers (models of Go `strings` operations) -/

/-- `leadsWith pre l` checks that `pre` is an initial segment of `l`
(model of Go `strings.HasPrefix` on rune lists). -/
def leadsWith : List Char → List Char → Bool
  | [], _ => true
  | _ :: _, [] => false
  | a :: as, b :: bs => a == b && leadsWith as bs

/-- Model of Go `strings.HasSuffix`. -/
def strHasSuf (s suf : String) : Bool :=
  leadsWith suf.data.reverse s.data.reverse

/-- Model of Go `strings.TrimSpace`. -/
def strTrimSpace (s : String) : String :=
  ⟨((s.data.dropWhile Char.isWhitespace).reverse.dropWhile Char.isWhitespace).reverse⟩

/-- Model of Go `strings.ToUpper`. -/
def strToUpper (s : String) : String := ⟨s.data.map Char.toUpper⟩

/-- Model of the Go slice `s[:n]` on a string. -/
def strTake (s : String) (n : Nat) : String := ⟨s.data.take n⟩

/-- Model of Go `strings.Index s sub`, the first index of `sub` in `s`
(`-1` when absent), by scanning left to right. -/
def goIndex : List Char → List Char → Nat → Int
  | s, sub, i =>
    if leadsWith sub s then (i : Int)
    else match s with
      | [] => -1
      | _ :: t => goIndex t sub (i + 1)

/-- All-digit parse of a nonempty digit list (helper for `atoi`). -/
def digitsToNat (cs : List Char) : Option Nat :=
  match cs with
  | [] => none
  | _ =>
    cs.foldl (fun acc c =>
      match acc with
      | none => none
      | some n => if c.isDigit then some (n * 10 + (c.toNat - 48)) else none) (some 0)

/-- Model of Go `strconv.Atoi`: optional sign followed by at least one
digit (integer overflow is not modelled). -/
def atoi (s : String) : Option Int :=
  match s.data with
  | [] => none
  | '+' :: rest => (digitsToNat rest).map (fun n => (n : Int))
  | '-' :: rest => (digitsToNat rest).map (fun n => -(n : Int))
  | l => (digitsToNat l).map (fun n => (n : Int))

/-! ### Transport errors -/

/-- Model of the Go error values seen by `IsConnectionReset`: the wrapping
errors it unwraps (`*url.Error`, `*net.OpError`, `*os.SyscallError`), a
`syscall.Errno`, and any other error. -/
inductive GoErr
  | urlError (inner : GoErr)
  | opError (inner : GoErr)
  | syscallError (inner : GoErr)
  | errno (n : Nat)
  | other (msg : String)
deriving DecidableEq

/-- `syscall.ECONNRESET` on Linux. -/
def ECONNRESET : Nat := 104

/-- Model of `IsConnectionReset` (request.go:538): unwrap at most one
`*url.Error`, then at most one `*net.OpError`, then at most one
`*os.SyscallError`, then test for `syscall.ECONNRESET`. -/
def IsConnectionReset (e : GoErr) : Bool :=
  let e1 := match e with | .urlError inner => inner | _ => e
  let e2 := match e1 with | .opError inner => inner | _ => e1
  let e3 := match e2 with | .syscallError inner => inner | _ => e2
  match e3 with
  | .errno n => n == ECONNRESET
  | _ => false

/-! ### Status errors and the message table -/

/-- Model of `StatusError` (request.go:611): a single human-readable message. -/
structure StatusErrorM where
  message : String
deriving DecidableEq

/-- Model of `NewGenericServerResponse` (request.go:574): the status-code to
message table.  Note that 403/406/415 pass the server-provided message
through while 429 uses a canned message. -/
def NewGenericServerResponse (code : Nat) (serverMessage : String) : StatusErrorM :=
  let message :=
    if code = 409 then "the server reported a conflict"
    else if code = 404 then "the server could not find the requested resource"
    else if code = 400 then "the server rejected our request for an unknown reason"
    else if code = 401 then "the server has asked for the client to provide credentials"
    else if code = 403 then serverMessage
    else if code = 406 then serverMessage
    else if code = 415 then serverMessage
    else if code = 405 then "the server does not allow this method on the requested resource"
    else if code = 422 then "the server rejected our request due to an error in our request"
    else if code = 503 then "the server is currently unable to handle the request"
    else if code = 504 then "the server was unable to return a response in the time allotted, but may still be processing the request"
    else if code = 429 then "the server has received too many requests and has asked us to try again later"
    else if 500 ≤ code then s!"an error on the server ({code}) has prevented the request from succeeding"
    else s!"the server responded with the status code {code} but did not return more information"
  ⟨message⟩

/-! ### Responses -/

/-- Outcome of `ioutil.ReadAll` on a response body (request.go:428): the
data, an `http2.StreamError`, or any other read error. -/
inductive ReadOutcome
  | ok (data : String)
  | http2StreamError
  | otherError
deriving DecidableEq

/-- A raw HTTP response as the retry loop and classifier see it: status
code, (canonicalized) header map, the outcome of reading its body, and its
cookies. -/
structure Resp where
  statusCode : Nat
  headers : String → List String
  readOutcome : ReadOutcome
  cookies : List String

/-- Model of `http.Header.Get`: first value for the key, or `""`. -/
def headerGet (h : String → List String) (key : String) : String :=
  match h key with
  | [] => ""
  | v :: _ => v

/-- Model of `retryAfterSeconds` (request.go:565): parse the `Retry-After`
header as integer seconds. -/
def retryAfterSeconds (resp : Resp) : Int × Bool :=
  let h := headerGet resp.headers "Retry-After"
  if h.length > 0 then
    match atoi h with
    | some i => (i, true)
    | none => (0, false)
  else (0, false)

/-- Model of `checkWait` (request.go:554): only 429 or ≥ 500 can trigger a
wait, and only with a parseable `Retry-After` header. -/
def checkWait (resp : Resp) : Int × Bool :=
  if resp.statusCode = 429 ∨ 500 ≤ resp.statusCode then retryAfterSeconds resp
  else (0, false)

/-- Model of `isTextResponse` (request.go:486): an absent `Content-Type` is
texty; an unparseable one is not; otherwise any `text/*` media type is
texty.  `pmt` models `mime.ParseMediaType` (external). -/
def isTextResponse (pmt : String → Except String String) (resp : Resp) : Bool :=
  let contentType := headerGet resp.headers "Content-Type"
  if contentType.length = 0 then true
  else match pmt contentType with
    | .error _ => false
    | .ok media => leadsWith "text/".data media.data

/-- `maxUnstructuredResponseTextBytes` (request.go:475). -/
def maxUnstructuredResponseTextBytes : Nat := 2048

/-- Model of `newUnstructuredResponseError` (request.go:497): cap the body
at 2048 bytes, use its trimmed text as the message only for texty
responses, then translate through `NewGenericServerResponse`.  The `method`
and `retryAfter` arguments are accepted and ignored, as in the source. -/
def newUnstructuredResponseError (body : String) (isTexty : Bool) (statusCode : Nat)
    (method : String) (retryAfter : Int) : StatusErrorM :=
  let body := if body.length > maxUnstructuredResponseTextBytes
              then strTake body maxUnstructuredResponseTextBytes else body
  let message := if isTexty then strTrimSpace body else "unknown"
  NewGenericServerResponse statusCode message

/-- Model of `transformUnstructuredResponseError` (request.go:477) in the
buffered path, where the body bytes were already read by
`transformResponse` (the `body == nil` refill only applies when the
response carried no body at all). -/
def transformUnstructuredResponseError (pmt : String → Except String String)
    (resp : Resp) (method : String) (body : String) : StatusErrorM :=
  newUnstructuredResponseError body (isTextResponse pmt resp) resp.statusCode
    method (retryAfterSeconds resp).1

/-! ### Results -/

/-- The errors a `Result` can carry: a `*StatusError` from classification,
a `fmt.Errorf`-style message, or a transport error passed through. -/
inductive RErr
  | statusError (message : String)
  | errorf (message : String)
  | transport (e : GoErr)
deriving DecidableEq

/-- Model of `Result` (request.go:51).  The decoder field is the fixed
`NewDecode()` dispatcher, modelled by `Decode` below. -/
structure ResultM where
  body : String
  contentType : String
  err : Option RErr
  statusCode : Nat
  headers : String → List String
  cookies : List String

/-- Model of `transformResponse` (request.go:425).  Reads of the body that
fail short-circuit into an error-only `Result`; status 101 passes through
with no error; statuses below 200 or above 206 (`http.StatusOK` ..
`http.StatusPartialContent`) are classified as failures. -/
def transformResponse (pmt : String → Except String String) (method : String)
    (resp : Resp) : ResultM :=
  match resp.readOutcome with
  | .http2StreamError =>
    { body := "", contentType := "", statusCode := 0, headers := fun _ => [], cookies := [],
      err := some (.errorf "Stream error when reading response body, may be caused by closed connection. Please retry.") }
  | .otherError =>
    { body := "", contentType := "", statusCode := 0, headers := fun _ => [], cookies := [],
      err := some (.errorf "Unexpected error when reading response body. Please retry.") }
  | .ok data =>
    let contentType := headerGet resp.headers "Content-Type"
    if resp.statusCode = 101 then
      { body := data, contentType := contentType, err := none,
        statusCode := resp.statusCode, headers := resp.headers, cookies := resp.cookies }
    else if resp.statusCode < 200 ∨ 206 < resp.statusCode then
      { body := data, contentType := contentType,
        err := some (.statusError (transformUnstructuredResponseError pmt resp method data).message),
        statusCode := resp.statusCode, headers := resp.headers, cookies := resp.cookies }
    else
      { body := data, contentType := contentType, err := none,
        statusCode := resp.statusCode, headers := resp.headers, cookies := resp.cookies }

/-- Model of `Result.Raw` (request.go:63). -/
def RawM (r : ResultM) : String × Option RErr := (r.body, r.err)

/-! ### Content decoding -/

/-- The external decoding collaborators of `Into`: `mime.ParseMediaType`
(projected to the media type it returns) and the three unmarshalers.  Each
unmarshaler returns an optional error together with the (possibly
modified) target. -/
structure DecodeEnv (α : Type) where
  pmt : String → Except String String
  jsonU : String → α → Option String × α
  yamlU : String → α → Option String × α
  xmlU : String → α → Option String × α

/-- Model of `decode.Decode` (request.go:517): dispatch on the media type;
any unrecognized type returns the target untouched with no error. -/
def Decode (env : DecodeEnv α) (data : String) (mediaType : String) (into : α) :
    Option String × α :=
  if mediaType = "application/json" then env.jsonU data into
  else if mediaType = "application/yaml" then env.yamlU data into
  else if mediaType = "application/xml" ∨ mediaType = "text/xml" then env.xmlU data into
  else (none, into)

/-- Model of `Result.Into` (request.go:67).  The result pairs the returned
error with the final target value.  The source's `out == obj` comparison
is between the pointer `&obj` passed to `Decode` and the target value, so
it never influences the returned error (both branches return `err`). -/
def IntoM (env : DecodeEnv α) (r : ResultM) (obj : α) : Option RErr × α :=
  match r.err with
  | some e => (some e, obj)
  | none =>
    if r.body.length = 0 then (some (.errorf "0-length response"), obj)
    else match env.pmt r.contentType with
      | .error e => (some (.errorf e), obj)
      | .ok mediaType =>
        match Decode env r.body mediaType obj with
        | (some e, t) => (some (.errorf e), t)
        | (none, t) => (none, t)

/-! ### The retry loop -/

/-- The replay capability of the configured body source: a source
implementing `io.Seeker` (with the per-attempt outcome of `Seek(0,0)`), or
a plain non-seekable reader. -/
inductive BodyKind
  | seekable (seekOk : Nat → Bool)
  | plain

/-- Outcome of one `client.Do` call: a response, or a transport error. -/
inductive SendOutcome
  | ok (resp : Resp)
  | err (e : GoErr)

/-- The placeholder response synthesized for a connection reset on a GET
(request.go:386): status 500 with a `Retry-After: 1` header and an empty
body. -/
def synthResp : Resp :=
  { statusCode := 500
  , headers := fun k => if k = "Retry-After" then ["1"] else []
  , readOutcome := .ok ""
  , cookies := [] }

/-- `maxRetries` (request.go:367). -/
def maxRetries : Nat := 10

/-- What the `done()` closure (request.go:393) decides for one evaluated
response: loop again, or deliver this response to the completion callback.
`retries + 1` is the incremented counter (`retries++` precedes the check).
Only a body that implements `io.Seeker` and whose seek fails stops an
otherwise retryable response; a non-seekable body is retried without being
rewound (the type assertion simply fails and the loop continues). -/
inductive RetryDecision
  | retry
  | deliver
deriving DecidableEq

/-- The retry decision of `done()` for the response of attempt `attempt`
with the pre-increment counter `retries`. -/
def retryDecision (body : Option BodyKind) (resp : Resp) (attempt retries : Nat) :
    RetryDecision :=
  if (checkWait resp).2 = true ∧ retries + 1 < maxRetries then
    match body with
    | some (.seekable seekOk) => if seekOk attempt then .retry else .deliver
    | _ => .retry
  else .deliver

/-- Model of the loop in `request` (request.go:369).  `attempts n` is the
outcome of `client.Do` on the n-th send (0-based); `attempt` is the index
of the current send and `retries` the counter before `retries++`.  A
transport error is fatal unless it is a connection reset on a GET, in
which case `synthResp` flows through the same evaluation.  On delivery the
result carries the index of the final attempt together with its response
(the response handed to the completion callback `fn`). -/
def requestLoop (verb : String) (body : Option BodyKind) (attempts : Nat → SendOutcome)
    (attempt retries : Nat) : Except RErr (Nat × Resp) :=
  match attempts attempt with
  | .err e =>
    if IsConnectionReset e = true ∧ verb = "GET" then
      if h : retryDecision body synthResp attempt retries = .retry then
        requestLoop verb body attempts (attempt + 1) (retries + 1)
      else .ok (attempt, synthResp)
    else .error (.transport e)
  | .ok resp =>
    if h : retryDecision body resp attempt retries = .retry then
      requestLoop verb body attempts (attempt + 1) (retries + 1)
    else .ok (attempt, resp)
termination_by maxRetries - retries
decreasing_by
  · simp only [retryDecision] at h
    split at h
    · omega
    · exact absurd h (by simp)
  · simp only [retryDecision] at h
    split at h
    · omega
    · exact absurd h (by simp)

/-! ### The request builder -/

/-- The slice of `http.Client` configuration this development observes: the
`InsecureSkipVerify` flag of the TLS configuration built by `NewRequest`. -/
structure ClientM where
  insecureSkipVerify : Bool
deriving DecidableEq

/-- Model of the result of `url.Parse` (external): the components the
source reads. -/
structure URLParsed where
  scheme : String
  host : String
  path : String
  queryKeys : List String
  query : String → List String

/-- Model of `Request` (request.go:30).  `params` and the optional
`headers` are modelled as lookup functions (Go map iteration order is
unspecified and `url.Values.Encode` sorts keys, so only per-key value
order is observable); `err` is the deferred configuration error; `body`
records the replay capability of the configured body source; `ctx` is an
opaque context identifier. -/
structure RequestM where
  client : Option ClientM
  verb : String
  baseURLPath : String
  pathPref : String
  subpath : String
  params : String → List String
  headers : Option (String → List String)
  timeout : Int
  err : Option RErr
  body : Option BodyKind
  ctx : Option Nat

/-- Model of `NewRequest` (request.go:123).  `urlParse` models `url.Parse`
and `pathJoin2` models two-argument `path.Join` (both external).  The
`https` substring test decides both the reparse scheme and
`InsecureSkipVerify`. -/
def NewRequestM (urlParse : String → Except String URLParsed)
    (pathJoin2 : String → String → String) (baseUrl verb : String) : RequestM :=
  let isHttps : Bool := goIndex baseUrl.data "https".data 0 != -1
  let reparsed : Option URLParsed :=
    match urlParse ((if isHttps then "https://" else "http://") ++ baseUrl) with
    | .ok u2 => some u2
    | .error _ => none
  let hostURL : Option URLParsed :=
    match urlParse baseUrl with
    | .ok u => if u.scheme = "" ∨ u.host = "" then reparsed else some u
    | .error _ => reparsed
  { client := some { insecureSkipVerify := isHttps }
  , verb := strToUpper verb
  , baseURLPath := (match hostURL with | some u => u.path | none => "")
  , pathPref := (match hostURL with | some u => pathJoin2 "/" u.path | none => "/")
  , subpath := ""
  , params := fun _ => []
  , headers := none
  , timeout := 0
  , err := none
  , body := none
  , ctx := none }

/-- Model of `HttpClient` (request.go:164).  Note: no deferred-error guard
in the source. -/
def HttpClientM (r : RequestM) (client : ClientM) : RequestM :=
  { r with client := some client }

/-- Model of `http.Header.Del`. -/
def headerDel (h : String → List String) (key : String) : String → List String :=
  fun k => if k = key then [] else h k

/-- Model of `http.Header.Add`. -/
def headerAdd (h : String → List String) (key value : String) : String → List String :=
  fun k => if k = key then h k ++ [value] else h k

/-- Model of `Header` (request.go:169): initialize the header map if nil,
delete prior values for the key, then add each given value.  Note: no
deferred-error guard in the source. -/
def HeaderM (r : RequestM) (key : String) (values : List String) : RequestM :=
  let h0 := match r.headers with | none => fun _ => [] | some f => f
  let h1 := headerDel h0 key
  let h2 := values.foldl (fun h v => headerAdd h key v) h1
  { r with headers := some h2 }

/-- Model of `Timeout` (request.go:180); guarded by the deferred error. -/
def TimeoutM (r : RequestM) (d : Int) : RequestM :=
  match r.err with
  | some _ => r
  | none => { r with timeout := d }

/-- Model of `Context` (request.go:188).  Note: no deferred-error guard in
the source. -/
def ContextM (r : RequestM) (ctx : Nat) : RequestM :=
  { r with ctx := some ctx }

/-- Model of `Prefix` (request.go:193); `pathJoin2`/`pathJoinN` model
`path.Join` (external); guarded by the deferred error. -/
def PrefixM (pathJoin2 : String → String → String) (pathJoinN : List String → String)
    (r : RequestM) (segments : List String) : RequestM :=
  match r.err with
  | some _ => r
  | none => { r with pathPref := pathJoin2 r.pathPref (pathJoinN segments) }

/-- Model of `Suffix` (request.go:201); guarded by the deferred error. -/
def SuffixM (pathJoin2 : String → String → String) (pathJoinN : List String → String)
    (r : RequestM) (segments : List String) : RequestM :=
  match r.err with
  | some _ => r
  | none => { r with subpath := pathJoin2 r.subpath (pathJoinN segments) }

/-- Model of `AbsPath` (request.go:209) with its trailing-slash
preservation rule; guarded by the deferred error. -/
def AbsPathM (pathJoin2 : String → String → String) (pathJoinN : List String → String)
    (r : RequestM) (segments : List String) : RequestM :=
  match r.err with
  | some _ => r
  | none =>
    let p := pathJoin2 r.baseURLPath (pathJoinN segments)
    let p :=
      if segments.length = 1 ∧ (1 < r.baseURLPath.length ∨ 1 < (segments.headD "").length)
          ∧ strHasSuf (segments.headD "") "/" = true
      then p ++ "/" else p
    { r with pathPref := p }

/-- Model of `RequestURI` (request.go:221): parse the URI (recording a
parse failure as the deferred error), overwrite the effective path, and
replace the parameter lists of every key the URI's query mentions;
guarded by the deferred error. -/
def RequestURIM (urlParse : String → Except String URLParsed)
    (r : RequestM) (uri : String) : RequestM :=
  match r.err with
  | some _ => r
  | none =>
    match urlParse uri with
    | .error e => { r with err := some (.errorf e) }
    | .ok locator =>
      let r1 := { r with pathPref := locator.path }
      if locator.queryKeys ≠ [] then
        { r1 with params := fun k =>
            if k ∈ locator.queryKeys then locator.query k else r1.params k }
      else r1

/-- Model of `setParam` (request.go:249): append the value to the key's
list. -/
def setParam (r : RequestM) (paramName value : String) : RequestM :=
  { r with params := fun k =>
      if k = paramName then r.params k ++ [value] else r.params k }

/-- Model of `Param` (request.go:242); guarded by the deferred error. -/
def ParamM (r : RequestM) (paramName s : String) : RequestM :=
  match r.err with
  | some _ => r
  | none => setParam r paramName s

/-- The caller-supplied argument of `Body` (request.go:257): a file path,
raw bytes, an already-open reader, or a value of any other type. -/
inductive BodyArg
  | filePath (p : String)
  | bytes (data : String)
  | reader (k : BodyKind)
  | otherType (desc : String)

/-- Model of `Body` (request.go:257); `readFile` models
`ioutil.ReadFile` (external).  File contents and raw bytes become
in-memory `bytes.Reader`s, which implement `io.Seeker` and always seek
successfully; a supplied reader keeps its own capability; any other type
records the configuration error.  The body contents themselves are not
observed by the retry loop, so only the replay capability is kept.
Guarded by the deferred error. -/
def BodyM (readFile : String → Except String String) (r : RequestM) (obj : BodyArg) :
    RequestM :=
  match r.err with
  | some _ => r
  | none =>
    match obj with
    | .filePath t =>
      match readFile t with
      | .error e => { r with err := some (.errorf e) }
      | .ok _ => { r with body := some (.seekable fun _ => true) }
    | .bytes _ => { r with body := some (.seekable fun _ => true) }
    | .reader k => { r with body := some k }
    | .otherType desc => { r with err := some (.errorf s!"unknown type used for body: {desc}") }

/-- Model of the query assembly inside `URL` (request.go:288): copy every
accumulated parameter, then overwrite the `timeout` key with the single
canonical string of the configured timeout when one is set.  `durString`
models `time.Duration.String` (external). -/
def URLquery (durString : Int → String) (r : RequestM) : String → List String :=
  let query : String → List String := fun key => r.params key
  if r.timeout ≠ 0 then
    fun key => if key = "timeout" then [durString r.timeout] else query key
  else query

/-- Model of `request` (request.go:357): fail immediately on a deferred
configuration error, otherwise run the retry loop from attempt 0 with a
zero counter. -/
def requestRun (r : RequestM) (attempts : Nat → SendOutcome) :
    Except RErr (Nat × Resp) :=
  match r.err with
  | some e => .error e
  | none => requestLoop r.verb r.body attempts 0 0

/-- Model of `Do` (request.go:346): an error from `request` becomes an
error-only `Result`; otherwise the completion callback classifies the
delivered response through `transformResponse`. -/
def DoM (pmt : String → Except String String) (r : RequestM)
    (attempts : Nat → SendOutcome) : ResultM :=
  match requestRun r attempts with
  | .error e =>
    { body := "", contentType := "", err := some e, statusCode := 0,
      headers := fun _ => [], cookies := [] }
  | .ok (_, resp) => transformResponse pmt r.verb resp

/-- Model of `Stream` (request.go:303): fail immediately on a deferred
configuration error; send once (no retry); hand the live body back on
2xx; otherwise classify and return only the error (falling back to a
formatted message when classification produced none, which happens for
status 101). -/
def StreamM (pmt : String → Except String String) (r : RequestM)
    (httpUrl : String) (send : SendOutcome) : Except RErr Resp :=
  match r.err with
  | some e => .error e
  | none =>
    match send with
    | .err e => .error (.transport e)
    | .ok resp =>
      if 200 ≤ resp.statusCode ∧ resp.statusCode < 300 then .ok resp
      else
        let result := transformResponse pmt r.verb resp
        match result.err with
        | some e => .error e
        | none => .error (.errorf s!"{result.statusCode} while accessing {httpUrl}: {result.body}")
/-! ### Helper lemmas about the retry loop -/

lemma rd_deliver_cap (body : Option BodyKind) (resp : Resp) (attempt retries : Nat)
    (h : maxRetries ≤ retries + 1) :
    retryDecision body resp attempt retries = .deliver := by
  simp only [retryDecision]
  rw [if_neg]
  intro hc
  omega

lemma rd_lt_of_retry (body : Option BodyKind) (resp : Resp) (attempt retries : Nat)
    (h : retryDecision body resp attempt retries = .retry) :
    retries + 1 < maxRetries := by
  simp only [retryDecision] at h
  split at h
  · omega
  · exact absurd h (by simp)

lemma rd_retry_of (body : Option BodyKind) (resp : Resp) (attempt retries : Nat)
    (hw : (checkWait resp).2 = true) (hc : retries + 1 < maxRetries)
    (hb : ∀ f, body = some (.seekable f) → f attempt = true) :
    retryDecision body resp attempt retries = .retry := by
  simp only [retryDecision, if_pos (And.intro hw hc)]
  match body with
  | some (.seekable f) => simp [hb f rfl]
  | some .plain => rfl
  | none => rfl

lemma rd_deliver_seek_false (seekOk : Nat → Bool) (resp : Resp) (attempt retries : Nat)
    (hs : seekOk attempt = false) :
    retryDecision (some (.seekable seekOk)) resp attempt retries = .deliver := by
  simp only [retryDecision]
  split
  · simp [hs]
  · rfl

lemma requestLoop_always_wait (verb : String) (body : Option BodyKind)
    (hb : ∀ f, body = some (.seekable f) → ∀ a, f a = true)
    (resp : Resp) (hw : (checkWait resp).2 = true) :
    ∀ k attempt retries, retries + k + 1 = maxRetries →
      requestLoop verb body (fun _ => .ok resp) attempt retries = .ok (attempt + k, resp) := by
  intro k
  induction k with
  | zero =>
    intro attempt retries hk
    have hd := rd_deliver_cap body resp attempt retries (by omega)
    rw [requestLoop]
    dsimp only []
    simp [hd]
  | succ k ih =>
    intro attempt retries hk
    have hr := rd_retry_of body resp attempt retries hw (by omega) (fun f hf => hb f hf attempt)
    rw [requestLoop]
    dsimp only []
    rw [dif_pos hr, ih (attempt + 1) (retries + 1) (by omega)]
    have h3 : attempt + 1 + k = attempt + (k + 1) := by omega
    rw [h3]

lemma requestLoop_congr (verb : String) (body : Option BodyKind) :
    ∀ n retries attempt (f g : Nat → SendOutcome), maxRetries - retries ≤ n →
    (∀ i, attempt ≤ i → f i = g i) →
    requestLoop verb body f attempt retries = requestLoop verb body g attempt retries := by
  intro n
  induction n with
  | zero =>
    intro retries attempt f g hn hfg
    conv_lhs => rw [requestLoop]
    conv_rhs => rw [requestLoop]
    rw [hfg attempt le_rfl]
    cases hg : g attempt with
    | err e =>
      dsimp only []
      have hd := rd_deliver_cap body synthResp attempt retries (by omega)
      simp [hd]
    | ok resp =>
      dsimp only []
      have hd := rd_deliver_cap body resp attempt retries (by omega)
      simp [hd]
  | succ n ih =>
    intro retries attempt f g hn hfg
    conv_lhs => rw [requestLoop]
    conv_rhs => rw [requestLoop]
    rw [hfg attempt le_rfl]
    cases hg : g attempt with
    | err e =>
      dsimp only []
      by_cases hcr : IsConnectionReset e = true ∧ verb = "GET"
      · rw [if_pos hcr, if_pos hcr]
        by_cases hrd : retryDecision body synthResp attempt retries = .retry
        · rw [dif_pos hrd, dif_pos hrd]
          have hlt := rd_lt_of_retry body synthResp attempt retries hrd
          exact ih (retries + 1) (attempt + 1) f g (by omega) (fun i hi => hfg i (by omega))
        · rw [dif_neg hrd, dif_neg hrd]
      · rw [if_neg hcr, if_neg hcr]
    | ok resp =>
      dsimp only []
      by_cases hrd : retryDecision body resp attempt retries = .retry
      · rw [dif_pos hrd, dif_pos hrd]
        have hlt := rd_lt_of_retry body resp attempt retries hrd
        exact ih (retries + 1) (attempt + 1) f g (by omega) (fun i hi => hfg i (by omega))
      · rw [dif_neg hrd, dif_neg hrd]

/-! ### C1: success range of the buffered classification -/

/-- C1, counterexample: the claim says a status in `[200, 300)` yields a
`Result` with no error, but `transformResponse` classifies 207
(inside `[200, 300)`, outside `[200, 206]`) as a failure and populates the
error. -/
theorem c1_counterexample :
    (transformResponse (fun _ => Except.error "unparseable") "GET"
      ⟨207, fun _ => [], ReadOutcome.ok "x", []⟩).err ≠ none := by
  decide

/-- C1 (amended): for a response whose body reads successfully, the
buffered path produces no error exactly on status 101 and statuses in
`[200, 206]`; every other status gets a populated structured error. -/
theorem c1_status_classification (pmt : String → Except String String)
    (method : String) (resp : Resp) (data : String)
    (hread : resp.readOutcome = .ok data) :
    ((resp.statusCode = 101 ∨ (200 ≤ resp.statusCode ∧ resp.statusCode ≤ 206)) →
      (transformResponse pmt method resp).err = none)
    ∧ ((resp.statusCode ≠ 101 ∧ (resp.statusCode < 200 ∨ 206 < resp.statusCode)) →
      (transformResponse pmt method resp).err =
        some (.statusError (transformUnstructuredResponseError pmt resp method data).message)) := by
  constructor
  · rintro (h101 | ⟨h1, h2⟩)
    · simp [transformResponse, hread, h101]
    · have hne : resp.statusCode ≠ 101 := by omega
      have hr : ¬(resp.statusCode < 200 ∨ 206 < resp.statusCode) := by omega
      simp [transformResponse, hread, hne, hr]
  · rintro ⟨hne, hr⟩
    simp [transformResponse, hread, hne, hr]

/-- C1, witness: status 204 is a success with no error; status 207 (with a
successfully read body) carries a populated error. -/
theorem c1_witness :
    (transformResponse (fun _ => Except.error "unparseable") "GET"
      ⟨204, fun _ => [], ReadOutcome.ok "x", []⟩).err = none
    ∧ (transformResponse (fun _ => Except.error "unparseable") "GET"
      ⟨299, fun _ => [], ReadOutcome.ok "x", []⟩).err =
        some (.statusError (transformUnstructuredResponseError
          (fun _ => Except.error "unparseable")
          ⟨299, fun _ => [], ReadOutcome.ok "x", []⟩ "GET" "x").message) :=
  ⟨(c1_status_classification (fun _ => Except.error "unparseable") "GET"
      ⟨204, fun _ => [], ReadOutcome.ok "x", []⟩ "x" rfl).1 (by decide),
   (c1_status_classification (fun _ => Except.error "unparseable") "GET"
      ⟨299, fun _ => [], ReadOutcome.ok "x", []⟩ "x" rfl).2 (by decide)⟩

/-! ### C6: message selection for 403/406/415/429 -/

/-- C6, counterexample: the claim says a texty 429 failure's message is the
server-provided body text, but `NewGenericServerResponse` replaces it with
the canned too-many-requests message. -/
theorem c6_counterexample :
    (newUnstructuredResponseError "slow down" true 429 "GET" 0).message
      = "the server has received too many requests and has asked us to try again later"
    ∧ (newUnstructuredResponseError "slow down" true 429 "GET" 0).message ≠ "slow down" := by
  constructor
  · decide
  · decide

/-- C6 (amended): for 403, 406 and 415 the structured error's message is
the capped, trimmed server body text when the response is texty and
"unknown" otherwise; for 429 it is always the canned too-many-requests
message, ignoring the body text. -/
theorem c6_message_selection (body : String) (texty : Bool) (code : Nat)
    (method : String) (ra : Int)
    (hcode : code = 403 ∨ code = 406 ∨ code = 415) :
    (newUnstructuredResponseError body texty code method ra).message
      = (if texty then strTrimSpace (if body.length > maxUnstructuredResponseTextBytes
          then strTake body maxUnstructuredResponseTextBytes else body) else "unknown")
    ∧ (newUnstructuredResponseError body texty 429 method ra).message
      = "the server has received too many requests and has asked us to try again later" := by
  constructor
  · rcases hcode with h | h | h <;>
      subst h <;> cases texty <;>
      simp [newUnstructuredResponseError, NewGenericServerResponse]
  · cases texty <;> simp [newUnstructuredResponseError, NewGenericServerResponse]

/-- C6, witness: a texty 403 response's message is the trimmed body text,
and "unknown" when not texty. -/
theorem c6_witness :
    (newUnstructuredResponseError " denied " true 403 "GET" 0).message
      = (if true then strTrimSpace (if " denied ".length > maxUnstructuredResponseTextBytes
          then strTake " denied " maxUnstructuredResponseTextBytes else " denied ") else "unknown")
    ∧ (newUnstructuredResponseError " denied " true 429 "GET" 0).message
      = "the server has received too many requests and has asked us to try again later" :=
  c6_message_selection " denied " true 403 "GET" 0 (by omega)


/-- A non-empty string has non-zero length. -/
lemma strLength_ne_zero {s : String} (h : s ≠ "") : ¬ s.length = 0 := by
  intro h0
  apply h
  cases s with
  | mk data =>
    simp [String.length] at h0
    simp [h0]

/-! ### C7: the immediate-failure gate of `Into` -/

/-- C7 (confirmed): `Into` fails before any decoding is attempted exactly
when a prior execution error exists, or the body is zero-length (with the
"0-length response" error), or the Content-Type does not parse as a media
type; in each of these cases the target is untouched and the result does
not depend on the decoders.  When none of the conditions hold, `Into`
proceeds to decode.  On a zero-length body with no prior error, `Raw`
still returns the empty bytes with no error. -/
theorem c7_into_gate {α : Type} (env : DecodeEnv α) (r : ResultM) (obj : α) :
    (∀ e, r.err = some e → IntoM env r obj = (some e, obj))
    ∧ (r.err = none → r.body = "" →
        IntoM env r obj = (some (.errorf "0-length response"), obj) ∧ RawM r = ("", none))
    ∧ (∀ pe, r.err = none → r.body ≠ "" → env.pmt r.contentType = .error pe →
        IntoM env r obj = (some (.errorf pe), obj))
    ∧ (∀ m, r.err = none → r.body ≠ "" → env.pmt r.contentType = .ok m →
        IntoM env r obj =
          ((Decode env r.body m obj).1.map RErr.errorf, (Decode env r.body m obj).2)) := by
  refine ⟨?_, ?_, ?_, ?_⟩
  · intro e he
    simp [IntoM, he]
  · intro he hb
    simp [IntoM, RawM, he, hb]
  · intro pe he hb hp
    have hlen : ¬ r.body.length = 0 := strLength_ne_zero hb
    simp [IntoM, he, hlen, hp]
  · intro m he hb hp
    have hlen : ¬ r.body.length = 0 := strLength_ne_zero hb
    simp only [IntoM, he, hlen, if_neg hlen, hp]
    rcases hd : Decode env r.body m obj with ⟨o, t⟩
    cases o <;> simp

/-- C7, witness: the three gate conditions and the decode pass-through at
concrete inputs. -/
theorem c7_witness :
    (IntoM ⟨fun s => if s = "" then Except.error "mime: no media type" else Except.ok s,
        fun _ n => (none, n + 1), fun _ n => (none, n), fun _ n => (none, n)⟩
      ⟨"b", "text/plain", some (.errorf "x"), 200, fun _ => [], []⟩ (5 : Nat)
        = (some (.errorf "x"), 5))
    ∧ (IntoM ⟨fun s => if s = "" then Except.error "mime: no media type" else Except.ok s,
        fun _ n => (none, n + 1), fun _ n => (none, n), fun _ n => (none, n)⟩
      ⟨"", "text/plain", none, 200, fun _ => [], []⟩ (5 : Nat)
        = (some (.errorf "0-length response"), 5)
      ∧ RawM (⟨"", "text/plain", none, 200, fun _ => [], []⟩ : ResultM) = ("", none))
    ∧ (IntoM ⟨fun s => if s = "" then Except.error "mime: no media type" else Except.ok s,
        fun _ n => (none, n + 1), fun _ n => (none, n), fun _ n => (none, n)⟩
      ⟨"b", "", none, 200, fun _ => [], []⟩ (5 : Nat)
        = (some (.errorf "mime: no media type"), 5))
    ∧ (IntoM ⟨fun s => if s = "" then Except.error "mime: no media type" else Except.ok s,
        fun _ n => (none, n + 1), fun _ n => (none, n), fun _ n => (none, n)⟩
      ⟨"b", "application/json", none, 200, fun _ => [], []⟩ (5 : Nat)
        = ((Decode ⟨fun s => if s = "" then Except.error "mime: no media type" else Except.ok s,
            fun _ n => (none, n + 1), fun _ n => (none, n), fun _ n => (none, n)⟩
            "b" "application/json" (5 : Nat)).1.map RErr.errorf,
           (Decode ⟨fun s => if s = "" then Except.error "mime: no media type" else Except.ok s,
            fun _ n => (none, n + 1), fun _ n => (none, n), fun _ n => (none, n)⟩
            "b" "application/json" (5 : Nat)).2)) :=
  ⟨(c7_into_gate _ _ _).1 (.errorf "x") rfl,
   (c7_into_gate _ _ _).2.1 rfl rfl,
   (c7_into_gate _ _ _).2.2.1 "mime: no media type" rfl (by decide) rfl,
   (c7_into_gate _ _ _).2.2.2 "application/json" rfl (by decide) rfl⟩

/-! ### C8: unsupported media types are a silent no-op -/

/-- C8 (confirmed): with no prior error, a non-empty body, and a
Content-Type that parses to a media type outside
{application/json, application/yaml, application/xml, text/xml},
`Into` returns no error and leaves the target unmodified. -/
theorem c8_unsupported_media_noop {α : Type} (env : DecodeEnv α) (r : ResultM)
    (obj : α) (m : String)
    (he : r.err = none) (hb : r.body ≠ "") (hp : env.pmt r.contentType = .ok m)
    (h1 : m ≠ "application/json") (h2 : m ≠ "application/yaml")
    (h3 : m ≠ "application/xml") (h4 : m ≠ "text/xml") :
    IntoM env r obj = (none, obj) := by
  have hlen : ¬ r.body.length = 0 := strLength_ne_zero hb
  simp [IntoM, he, hlen, hp, Decode, h1, h2, h3, h4]

/-- C8, witness: an `application/octet-stream` body decodes to nothing,
with no error and the target value `5` unchanged even though every
registered unmarshaler would have modified it. -/
theorem c8_witness :
    IntoM ⟨fun s => Except.ok s, fun _ n => (none, n + 1), fun _ n => (none, n + 2),
        fun _ n => (none, n + 3)⟩
      ⟨"data", "application/octet-stream", none, 200, fun _ => [], []⟩ (5 : Nat)
      = (none, 5) :=
  c8_unsupported_media_noop _ _ _ "application/octet-stream" rfl (by decide) rfl
    (by decide) (by decide) (by decide) (by decide)

/-! ### C9: the reserved `timeout` query parameter -/

/-- C9 (confirmed): with a configured non-zero timeout, the composed query
maps `timeout` to exactly the one-element list holding the duration's
canonical string, regardless of what the caller accumulated under that
key; every other key keeps its accumulated values, and repeated `Param`
calls append rather than replace. -/
theorem c9_timeout_query (durString : Int → String) (r : RequestM) (k v1 v2 : String)
    (he : r.err = none) (ht : r.timeout ≠ 0) :
    URLquery durString r "timeout" = [durString r.timeout]
    ∧ (k ≠ "timeout" → URLquery durString r k = r.params k)
    ∧ (ParamM (ParamM r k v1) k v2).params k = r.params k ++ [v1, v2] := by
  refine ⟨?_, ?_, ?_⟩
  · simp [URLquery, ht]
  · intro hk
    simp [URLquery, ht, hk]
  · simp [ParamM, setParam, he]

/-- An empty builder against which concrete executions are evaluated
(shared by several witnesses). -/
def emptyReqM : RequestM :=
  { client := none, verb := "GET", baseURLPath := "", pathPref := "/", subpath := "",
    params := fun _ => [], headers := none, timeout := 0, err := none,
    body := none, ctx := none }

/-- C9, witness: with a 2-unit timeout configured and `timeout=99` and two
`a` values accumulated by the caller, the composed query holds exactly the
canonical duration string under `timeout` and both `a` values. -/
theorem c9_witness :
    URLquery (fun i => toString i ++ "ns")
      (ParamM (ParamM { emptyReqM with timeout := 2 } "timeout" "99") "a" "1") "timeout"
      = ["2ns"]
    ∧ ("a" ≠ "timeout" →
      URLquery (fun i => toString i ++ "ns")
        (ParamM (ParamM { emptyReqM with timeout := 2 } "timeout" "99") "a" "1") "a"
        = (ParamM (ParamM { emptyReqM with timeout := 2 } "timeout" "99") "a" "1").params "a")
    ∧ (ParamM (ParamM
        (ParamM (ParamM { emptyReqM with timeout := 2 } "timeout" "99") "a" "1") "a" "1") "a" "2").params "a"
      = (ParamM (ParamM { emptyReqM with timeout := 2 } "timeout" "99") "a" "1").params "a" ++ ["1", "2"] :=
  c9_timeout_query (fun i => toString i ++ "ns")
    (ParamM (ParamM { emptyReqM with timeout := 2 } "timeout" "99") "a" "1") "a" "1" "2"
    rfl (by decide)

/-- A constantly-retryable response: 503 with `Retry-After: 0` (shared by
several witnesses and counterexamples). -/
def resp503R0 : Resp :=
  ⟨503, fun k => if k = "Retry-After" then ["0"] else [], .ok "", []⟩

/-! ### C2: the retry bound is exactly 10 total attempts -/

/-- C2 (confirmed): against a server that always answers 503 with a
parseable `Retry-After` header, an execution with a seekable body sends
exactly 10 requests — the delivered response is the one of attempt index 9
(attempt indices start at 0 and each loop level consumes exactly one
send) — and `Do` returns that 10th response's classification. -/
theorem c2_retry_cap (pmt : String → Except String String) (r : RequestM)
    (resp : Resp) (i : Int)
    (he : r.err = none) (hbody : r.body = some (.seekable fun _ => true))
    (hs : resp.statusCode = 503) (hra : retryAfterSeconds resp = (i, true)) :
    requestRun r (fun _ => .ok resp) = .ok (9, resp)
    ∧ DoM pmt r (fun _ => .ok resp) = transformResponse pmt r.verb resp := by
  have hw : (checkWait resp).2 = true := by
    rw [checkWait, if_pos (by omega), hra]
  have hb : ∀ f, r.body = some (.seekable f) → ∀ a, f a = true := by
    intro f hf a
    rw [hbody] at hf
    have : (fun _ : Nat => true) = f := by
      injection hf with h1
      injection h1
    rw [← this]
  have hloop := requestLoop_always_wait r.verb r.body hb resp hw 9 0 0 (by rfl)
  have hrun : requestRun r (fun _ => .ok resp) = .ok (9, resp) := by
    rw [requestRun, he]
    exact hloop
  exact ⟨hrun, by simp [DoM, hrun]⟩

/-- C2, witness: the concrete always-503 execution stops at attempt index 9
and `Do` returns its classification. -/
theorem c2_witness :
    requestRun { emptyReqM with body := some (.seekable fun _ => true) }
      (fun _ => .ok resp503R0) = .ok (9, resp503R0)
    ∧ DoM (fun s => Except.ok s) { emptyReqM with body := some (.seekable fun _ => true) }
      (fun _ => .ok resp503R0)
      = transformResponse (fun s => Except.ok s)
          { emptyReqM with body := some (.seekable fun _ => true) }.verb resp503R0 :=
  c2_retry_cap (fun s => Except.ok s) _ resp503R0 0 rfl rfl (by decide) (by decide)

/-! ### C3: behavior when the body cannot be rewound -/

/-- C3, counterexample: the claim says a retryable response with a
non-seekable body stops the loop at the first response, but a body that
does not implement `io.Seeker` at all is retried to the full cap — the
always-503 execution with a plain body delivers attempt index 9, not 0. -/
theorem c3_counterexample :
    requestLoop "GET" (some .plain) (fun _ => .ok resp503R0) 0 0 = .ok (9, resp503R0)
    ∧ requestLoop "GET" (some .plain) (fun _ => .ok resp503R0) 0 0 ≠ .ok (0, resp503R0) := by
  have heval : requestLoop "GET" (some .plain) (fun _ => .ok resp503R0) 0 0
      = .ok (9, resp503R0) := by
    refine requestLoop_always_wait "GET" (some .plain) ?_ resp503R0 (by decide) 9 0 0 (by rfl)
    intro f hf
    cases hf
  refine ⟨heval, ?_⟩
  rw [heval]
  intro hcontra
  have : (9, resp503R0) = (0, resp503R0) := by
    injection hcontra
  have h9 : 9 = 0 := congrArg Prod.fst this
  omega

/-- C3 (amended): only a body that implements `io.Seeker` but whose seek
back to the start fails stops an otherwise retryable response — the loop
then delivers the current response as the final result without invoking a
further attempt.  A body source that does not support seeking at all does
not stop the loop: the request is retried without being rewound. -/
theorem c3_seek_stop (verb : String) (seekOk : Nat → Bool)
    (attempts : Nat → SendOutcome) (resp : Resp) (a retries : Nat)
    (hatt : attempts a = .ok resp) (hw : (checkWait resp).2 = true)
    (hc : retries + 1 < maxRetries) :
    (seekOk a = false →
      requestLoop verb (some (.seekable seekOk)) attempts a retries = .ok (a, resp))
    ∧ requestLoop verb (some .plain) attempts a retries
        = requestLoop verb (some .plain) attempts (a + 1) (retries + 1) := by
  constructor
  · intro hs
    rw [requestLoop, hatt]
    dsimp only []
    rw [dif_neg]
    rw [rd_deliver_seek_false seekOk resp a retries hs]
    simp
  · rw [requestLoop, hatt]
    dsimp only []
    rw [dif_pos (rd_retry_of (some .plain) resp a retries hw hc (by intro f hf; cases hf))]

/-- C3, witness: with a failing seeker the first retryable response is
delivered as final; with a plain body the loop steps to the next attempt. -/
theorem c3_witness :
    requestLoop "GET" (some (.seekable fun _ => false)) (fun _ => .ok resp503R0) 0 0
      = .ok (0, resp503R0)
    ∧ requestLoop "GET" (some .plain) (fun _ => .ok resp503R0) 0 0
      = requestLoop "GET" (some .plain) (fun _ => .ok resp503R0) 1 1 :=
  ⟨(c3_seek_stop "GET" (fun _ => false) (fun _ => .ok resp503R0) resp503R0 0 0
      rfl (by decide) (by decide)).1 rfl,
   (c3_seek_stop "GET" (fun _ => false) (fun _ => .ok resp503R0) resp503R0 0 0
      rfl (by decide) (by decide)).2⟩

/-! ### C4: transport-level send errors -/

/-- C4 (confirmed): when a send fails, any error that is not a connection
reset — or any verb other than GET — is returned immediately as a fatal
transport error; a connection reset on a GET behaves exactly as if the
send had returned the synthesized placeholder response, which carries
status 500 with `Retry-After: 1` and is a wait candidate for the normal
retry evaluation. -/
theorem c4_transport (verb : String) (body : Option BodyKind)
    (attempts : Nat → SendOutcome) (a retries : Nat) (e : GoErr)
    (hatt : attempts a = .err e) :
    (¬(IsConnectionReset e = true ∧ verb = "GET") →
      requestLoop verb body attempts a retries = .error (.transport e))
    ∧ ((IsConnectionReset e = true ∧ verb = "GET") →
      requestLoop verb body attempts a retries
        = requestLoop verb body (Function.update attempts a (.ok synthResp)) a retries)
    ∧ (checkWait synthResp).2 = true
    ∧ synthResp.statusCode = 500
    ∧ headerGet synthResp.headers "Retry-After" = "1" := by
  refine ⟨?_, ?_, by decide, by decide, by decide⟩
  · intro hcr
    rw [requestLoop, hatt]
    dsimp only []
    rw [if_neg hcr]
  · intro hcr
    conv_lhs => rw [requestLoop]
    conv_rhs => rw [requestLoop]
    rw [hatt, Function.update_same]
    dsimp only []
    rw [if_pos hcr]
    by_cases hrd : retryDecision body synthResp a retries = .retry
    · rw [dif_pos hrd, dif_pos hrd]
      exact requestLoop_congr verb body maxRetries (retries + 1) (a + 1)
        attempts (Function.update attempts a (.ok synthResp)) (by omega)
        (fun i hi => (Function.update_noteq (by omega) _ attempts).symm)
    · rw [dif_neg hrd, dif_neg hrd]

/-- C4, witness: an `ECONNRESET` under a POST is fatal; the same error
under a GET flows through the synthesized-response path. -/
theorem c4_witness :
    requestLoop "POST" none (fun _ => .err (.errno 104)) 0 0
      = .error (.transport (.errno 104))
    ∧ requestLoop "GET" none (fun _ => .err (.errno 104)) 0 0
      = requestLoop "GET" none
          (Function.update (fun _ => .err (.errno 104)) 0 (.ok synthResp)) 0 0 :=
  ⟨(c4_transport "POST" none (fun _ => .err (.errno 104)) 0 0 (.errno 104) rfl).1
      (by decide),
   (c4_transport "GET" none (fun _ => .err (.errno 104)) 0 0 (.errno 104) rfl).2.1
      (by decide)⟩

/-! ### C5: the deferred-error gate on configuration and execution -/

/-- Observation of the builder's header map: the values recorded under a
key (empty when the map is still nil). -/
def headersGet (r : RequestM) (k : String) : List String :=
  match r.headers with
  | none => []
  | some f => f k

/-- A builder with a recorded configuration error (shared by the C5
theorems). -/
def erroredReq : RequestM := { emptyReqM with err := some (.errorf "boom") }

/-- C5, counterexample: the claim says every configuration method is a
no-op once a configuration error is recorded, but `Header` carries no
guard: on a builder whose deferred error is set it still installs the
value. -/
theorem c5_counterexample :
    erroredReq.err = some (.errorf "boom")
    ∧ headersGet (HeaderM erroredReq "X-Test" ["v"]) "X-Test" = ["v"]
    ∧ headersGet erroredReq "X-Test" = [] := by
  refine ⟨rfl, ?_, rfl⟩
  decide

/-- C5 (amended): after a configuration error is recorded, `Timeout`,
`Prefix`, `Suffix`, `AbsPath`, `RequestURI`, `Param` and `Body` are
no-ops, and both execution paths fail immediately with that first
recorded error; `HttpClient`, `Header` and `Context` are unguarded and
still mutate their fields. -/
theorem c5_deferred_gate (r : RequestM) (e : RErr) (d : Int)
    (j2 : String → String → String) (jn : List String → String)
    (parse : String → Except String URLParsed) (rf : String → Except String String)
    (segs : List String) (uri k v : String) (arg : BodyArg)
    (attempts : Nat → SendOutcome) (pmt : String → Except String String)
    (u : String) (send : SendOutcome)
    (he : r.err = some e) :
    TimeoutM r d = r
    ∧ PrefixM j2 jn r segs = r
    ∧ SuffixM j2 jn r segs = r
    ∧ AbsPathM j2 jn r segs = r
    ∧ RequestURIM parse r uri = r
    ∧ ParamM r k v = r
    ∧ BodyM rf r arg = r
    ∧ requestRun r attempts = .error e
    ∧ StreamM pmt r u send = .error e := by
  refine ⟨?_, ?_, ?_, ?_, ?_, ?_, ?_, ?_, ?_⟩ <;>
    simp [TimeoutM, PrefixM, SuffixM, AbsPathM, RequestURIM, ParamM, BodyM,
      requestRun, StreamM, he]

/-- C5, witness: every guarded method is a no-op on the errored builder and
both executions fail with the recorded error. -/
theorem c5_witness :
    TimeoutM erroredReq 7 = erroredReq
    ∧ PrefixM (fun a _ => a) (fun _ => "") erroredReq ["p"] = erroredReq
    ∧ SuffixM (fun a _ => a) (fun _ => "") erroredReq ["p"] = erroredReq
    ∧ AbsPathM (fun a _ => a) (fun _ => "") erroredReq ["p"] = erroredReq
    ∧ RequestURIM (fun _ => Except.error "bad") erroredReq "u" = erroredReq
    ∧ ParamM erroredReq "k" "v" = erroredReq
    ∧ BodyM (fun _ => Except.error "no file") erroredReq (.bytes "b") = erroredReq
    ∧ requestRun erroredReq (fun _ => .ok resp503R0) = .error (.errorf "boom")
    ∧ StreamM (fun s => Except.ok s) erroredReq "u" (.ok resp503R0)
        = .error (.errorf "boom") :=
  c5_deferred_gate erroredReq (.errorf "boom") 7 (fun a _ => a) (fun _ => "")
    (fun _ => Except.error "bad") (fun _ => Except.error "no file") ["p"] "u" "k" "v"
    (.bytes "b") (fun _ => .ok resp503R0) (fun s => Except.ok s) "u" (.ok resp503R0) rfl

/-! ### C10: the `https` substring check and TLS verification -/

/-- `leadsWith` holds exactly on initial segments. -/
lemma leadsWith_iff (sub : List Char) : ∀ s, leadsWith sub s = true ↔ ∃ t, sub ++ t = s := by
  induction sub with
  | nil =>
    intro s
    simp [leadsWith]
  | cons a as ih =>
    intro s
    cases s with
    | nil =>
      simp [leadsWith]
    | cons b bs =>
      simp [leadsWith, ih, List.cons_append, List.cons.injEq, Bool.and_eq_true, beq_iff_eq]

/-- `goIndex` reports an occurrence exactly when the pattern is an infix of
the scanned list. -/
lemma goIndex_iff (sub : List Char) : ∀ (s : List Char) (i : Nat),
    goIndex s sub i ≠ -1 ↔ sub <:+: s := by
  intro s
  induction s with
  | nil =>
    intro i
    rw [goIndex]
    by_cases h : leadsWith sub [] = true
    · rw [if_pos h]
      rcases (leadsWith_iff sub []).mp h with ⟨t, ht⟩
      have hsub : sub = [] := by
        cases sub with
        | nil => rfl
        | cons a as => simp at ht
      subst hsub
      constructor
      · intro _
        exact ⟨[], [], rfl⟩
      · intro _
        omega
    · rw [if_neg h]
      constructor
      · intro hne
        exact absurd rfl hne
      · intro hinf
        exfalso
        apply h
        rcases hinf with ⟨pre, suf, hps⟩
        have hsub : sub = [] := by
          cases pre with
          | nil =>
            cases sub with
            | nil => rfl
            | cons a as => simp at hps
          | cons p ps => simp at hps
        rw [hsub]
        rfl
  | cons c t ih =>
    intro i
    rw [goIndex]
    by_cases h : leadsWith sub (c :: t) = true
    · rw [if_pos h]
      rcases (leadsWith_iff sub (c :: t)).mp h with ⟨u, hu⟩
      constructor
      · intro _
        exact ⟨[], u, by simpa using hu⟩
      · intro _
        omega
    · rw [if_neg h]
      rw [ih (i + 1)]
      constructor
      · rintro ⟨pre, suf, hps⟩
        exact ⟨c :: pre, suf, by simp [hps]⟩
      · rintro ⟨pre, suf, hps⟩
        cases pre with
        | nil =>
          exfalso
          apply h
          apply (leadsWith_iff sub (c :: t)).mpr
          exact ⟨suf, by simpa using hps⟩
        | cons p ps =>
          have hp : p = c ∧ ps ++ sub ++ suf = t := by
            simpa [List.cons_append, List.cons.injEq] using hps
          exact ⟨ps, suf, hp.2⟩

/-- C10 (confirmed): `NewRequest` builds its default client with
`InsecureSkipVerify` set exactly when the base address contains the
substring `https` anywhere; otherwise certificate verification stays
enabled. -/
theorem c10_insecure_tls (parse : String → Except String URLParsed)
    (j2 : String → String → String) (baseUrl verb : String) :
    ("https".data <:+: baseUrl.data →
      (NewRequestM parse j2 baseUrl verb).client = some ⟨true⟩)
    ∧ (¬ "https".data <:+: baseUrl.data →
      (NewRequestM parse j2 baseUrl verb).client = some ⟨false⟩) := by
  have hclient : (NewRequestM parse j2 baseUrl verb).client
      = some ⟨goIndex baseUrl.data "https".data 0 != -1⟩ := by
    simp [NewRequestM]
  constructor
  · intro hinf
    rw [hclient]
    have := (goIndex_iff "https".data baseUrl.data 0).mpr hinf
    simp [bne_iff_ne, this]
  · intro hinf
    rw [hclient]
    have : ¬ goIndex baseUrl.data "https".data 0 ≠ -1 := by
      intro hne
      exact hinf ((goIndex_iff "https".data baseUrl.data 0).mp hne)
    simp only [ne_eq, not_not] at this
    simp [this]

/-- C10, witness: a base address containing `https` disables verification;
one without it keeps verification enabled. -/
theorem c10_witness :
    (NewRequestM (fun _ => Except.error "x") (fun a b => a ++ b)
      "https://example.com" "get").client = some ⟨true⟩
    ∧ (NewRequestM (fun _ => Except.error "x") (fun a b => a ++ b)
      "example.com:8080" "get").client = some ⟨false⟩ :=
  ⟨(c10_insecure_tls (fun _ => Except.error "x") (fun a b => a ++ b)
      "https://example.com" "get").1 (by decide),
   (c10_insecure_tls (fun _ => Except.error "x") (fun a b => a ++ b)
      "example.com:8080" "get").2 (by decide)⟩
